import Mathlib

/-!
Shallow embedding of the session/auth core of the RAMAERA hosting dashboard:
the zustand user store (login, signUp, logout, checkAuth, role predicates),
the route guard in components/ProtectedRoute.tsx, and the second
ProtectedRoute at the end of store/authStore.ts.

Asynchronous network calls are modelled by passing the server response as an
explicit oracle argument; each operation returns the new application state
together with the list of API calls it issued and, for login/signUp, the
exception it re-throws (as an Option String).
-/

/-- User record from the source interface User in the store file; only the
fields the session core reads are kept (role is the one consulted by the
role predicates and the guard). -/
structure User where
  id : String
  email : String
  full_name : String
  role : String
  account_status : String
deriving DecidableEq, Repr

/-- Stats response model from interface UserStats. -/
structure UserStats where
  total_users : Nat
  active_users : Nat
  suspended_users : Nat
  new_users_today : Nat
  new_users_this_week : Nat
  new_users_this_month : Nat
deriving DecidableEq, Repr

/-- Login credentials from interface LoginCredentials. -/
structure LoginCredentials where
  email : String
  password : String
deriving DecidableEq, Repr

/-- The zustand store fields of useUserStore (users, user, stats, loading,
error, token, isAuthenticated). -/
structure StoreState where
  users : List User
  user : Option User
  stats : Option UserStats
  loading : Bool
  error : Option String
  token : Option String
  isAuthenticated : Bool
deriving DecidableEq, Repr

/-- Whole-application state: the store plus the browser localStorage slot
for the key authToken (the persisted-token store). -/
structure AppState where
  store : StoreState
  storage : Option String
deriving DecidableEq, Repr

/-- JavaScript truthiness of an optional string: getItem returns null for a
missing key, and both null and the empty string are falsy. -/
def jsTruthy : Option String → Bool
  | none => false
  | some s => s ≠ ""

/-- Initial store state, lines 111 to 117 of the store file: token is
getItem of authToken or-else null, isAuthenticated is double-bang of the
same getItem call. -/
def initStore (persisted : Option String) : StoreState :=
  { users := []
    user := none
    stats := none
    loading := false
    error := none
    token := if jsTruthy persisted then persisted else none
    isAuthenticated := jsTruthy persisted }

/-- Initial application state hydrated from the persisted-token store. -/
def initState (persisted : Option String) : AppState :=
  { store := initStore persisted, storage := persisted }

/-- Network calls the session core can issue. -/
inductive ApiCall where
  | postLogin (email password : String)
  | postRegister (email password fullName : String) (referralCode : Option String)
  | getMe (token : String)
deriving DecidableEq, Repr

/-- Server response oracle for the login and register endpoints: either an
AuthResponse carrying access_token and user, or a thrown error with its
message field. -/
inductive AuthOutcome where
  | success (access_token : String) (user : User)
  | failure (message : String)
deriving DecidableEq, Repr

/-- Server response oracle for GET /auth/me: either the current user record
or a thrown error. -/
inductive MeOutcome where
  | success (user : User)
  | failure
deriving DecidableEq, Repr

/-- First set call of login, line 124: set loading true, error null. -/
def loginStart (s : AppState) : AppState :=
  { s with store := { s.store with loading := true, error := none } }

/-- First set call of signUp, line 139: set loading true, error null. -/
def signUpStart (s : AppState) : AppState :=
  { s with store := { s.store with loading := true, error := none } }

/-- The set call at the head of the with-token branch of checkAuth,
line 163: set loading true only; error is not touched. -/
def checkAuthStartWithToken (s : AppState) : AppState :=
  { s with store := { s.store with loading := true } }

/-- login, lines 123 to 136 of the store file. On success it persists the
token, stores user and token, sets isAuthenticated true and loading false;
on failure it records the error message and re-throws it (third component).
Exactly one POST /auth/login call is issued either way. -/
def login (s : AppState) (creds : LoginCredentials) (o : AuthOutcome) :
    AppState × List ApiCall × Option String :=
  let s1 := loginStart s
  match o with
  | .success tok u =>
      ({ s1 with
          storage := some tok
          store := { s1.store with
            user := some u, token := some tok
            isAuthenticated := true, loading := false } },
        [ApiCall.postLogin creds.email creds.password], none)
  | .failure msg =>
      ({ s1 with store := { s1.store with error := some msg, loading := false } },
        [ApiCall.postLogin creds.email creds.password], some msg)

/-- signUp, lines 138 to 151: same contract as login against the register
endpoint. -/
def signUp (s : AppState) (email password fullName : String)
    (referralCode : Option String) (o : AuthOutcome) :
    AppState × List ApiCall × Option String :=
  let s1 := signUpStart s
  match o with
  | .success tok u =>
      ({ s1 with
          storage := some tok
          store := { s1.store with
            user := some u, token := some tok
            isAuthenticated := true, loading := false } },
        [ApiCall.postRegister email password fullName referralCode], none)
  | .failure msg =>
      ({ s1 with store := { s1.store with error := some msg, loading := false } },
        [ApiCall.postRegister email password fullName referralCode], some msg)

/-- logout, lines 153 to 158: removes the persisted token and sets user,
token, isAuthenticated, users and stats in one set call; purely local, no
network call. -/
def logout (s : AppState) : AppState × List ApiCall :=
  ({ s with
      storage := none
      store := { s.store with
        user := none, token := none, isAuthenticated := false
        users := [], stats := none } },
    [])

/-- checkAuth, lines 160 to 181. Reads the persisted token; a truthy token
leads to GET /auth/me whose success rehydrates the session and whose
failure removes the token and clears the session; a falsy token resolves
immediately with isAuthenticated false and loading false, no network. -/
def checkAuth (s : AppState) (o : MeOutcome) : AppState × List ApiCall :=
  if jsTruthy s.storage then
    let tok := s.storage.getD ""
    let s1 := checkAuthStartWithToken s
    match o with
    | .success u =>
        ({ s1 with store := { s1.store with
            user := some u, token := some tok
            isAuthenticated := true, loading := false } },
          [ApiCall.getMe tok])
    | .failure =>
        ({ s1 with
            storage := none
            store := { s1.store with
              user := none, token := none
              isAuthenticated := false, loading := false } },
          [ApiCall.getMe tok])
  else
    ({ s with store := { s.store with isAuthenticated := false, loading := false } },
      [])

/-- Optional-chaining role test: user question-mark dot role
triple-equals r, false when user is null. -/
def optRoleIs (u : Option User) (r : String) : Bool :=
  match u with
  | none => false
  | some u => u.role == r

/-- getIsAdmin, line 183 of the store file. -/
def getIsAdmin (s : StoreState) : Bool :=
  optRoleIs s.user "admin" || optRoleIs s.user "super_admin"

/-- getIsSuperAdmin, line 184 of the store file. -/
def getIsSuperAdmin (s : StoreState) : Bool :=
  optRoleIs s.user "super_admin"

/-- Rendering decision of a route-guard component: a neutral loading
indicator, a client-side redirect via Navigate, or the protected children
rendered unchanged. -/
inductive RouteOutcome (α : Type) where
  | pending
  | navigate (route : String)
  | render (children : α)
deriving DecidableEq, Repr

/-- The route guard of components/ProtectedRoute.tsx: loading spinner
first, then redirect to /login when not authenticated, then the admin and
super-admin requirement checks redirecting to /dashboard, else the
children. The local isAdmin and isSuperAdmin are computed from user role
exactly as on lines 25 and 26 of the source. -/
def ProtectedRoute {α : Type} (children : α)
    (requireAdmin requireSuperAdmin : Bool) (s : StoreState) : RouteOutcome α :=
  if s.loading then
    RouteOutcome.pending
  else if !s.isAuthenticated then
    RouteOutcome.navigate "/login"
  else
    let isAdmin := optRoleIs s.user "admin" || optRoleIs s.user "super_admin"
    let isSuperAdmin := optRoleIs s.user "super_admin"
    if requireAdmin && !isAdmin then RouteOutcome.navigate "/dashboard"
    else if requireSuperAdmin && !isSuperAdmin then RouteOutcome.navigate "/dashboard"
    else RouteOutcome.render children

namespace AuthStoreFile

/-- The second ProtectedRoute component, defined at the end of
store/authStore.ts: it takes only children and returns them directly. The
ambient store state is threaded as an extra argument that the component
never reads, so that independence from the session can be stated. -/
def ProtectedRoute {α : Type} (children : α) (_s : StoreState) : RouteOutcome α :=
  RouteOutcome.render children

end AuthStoreFile

/-- Well-formedness of a server auth response: a real backend issues
nonempty bearer tokens (an empty access_token would be falsy in the
JavaScript source). -/
def okAuth : AuthOutcome → Prop
  | .success tok _ => tok ≠ ""
  | .failure _ => True

/-- One completed session-store operation: a resolved login or signUp (with
a well-formed server response), a logout, or a resolved checkAuth. -/
inductive Step : AppState → AppState → Prop where
  | stepLogin (s : AppState) (creds : LoginCredentials) (o : AuthOutcome) :
      okAuth o → Step s (login s creds o).1
  | stepSignUp (s : AppState) (email password fullName : String)
      (rc : Option String) (o : AuthOutcome) :
      okAuth o → Step s (signUp s email password fullName rc o).1
  | stepLogout (s : AppState) : Step s (logout s).1
  | stepCheckAuth (s : AppState) (o : MeOutcome) : Step s (checkAuth s o).1

/-- States reachable from a given state by completed session operations. -/
inductive Reachable : AppState → AppState → Prop where
  | refl (s : AppState) : Reachable s s
  | tail (s t u : AppState) : Reachable s t → Step t u → Reachable s u

/-- The session invariant of the spec: isAuthenticated holds exactly when
both token and current user are present. -/
def sessionInv (s : AppState) : Bool :=
  s.store.isAuthenticated == (s.store.token.isSome && s.store.user.isSome)

/-- Auxiliary inductive invariant: the session invariant plus the fact that
a token held in the store is backed by a truthy persisted token. -/
def fullInv (s : AppState) : Bool :=
  sessionInv s && (!s.store.token.isSome || jsTruthy s.storage)

theorem fullInv_step {s t : AppState} (h : fullInv s = true) (hst : Step s t) :
    fullInv t = true := by
  cases hst with
  | stepLogin creds o hok =>
      cases o with
      | success tok u =>
          simp only [okAuth] at hok
          simp [fullInv, sessionInv, login, loginStart, jsTruthy, hok]
      | failure msg =>
          simp [fullInv, sessionInv, login, loginStart, jsTruthy] at h ⊢
          exact h
  | stepSignUp email password fullName rc o hok =>
      cases o with
      | success tok u =>
          simp only [okAuth] at hok
          simp [fullInv, sessionInv, signUp, signUpStart, jsTruthy, hok]
      | failure msg =>
          simp [fullInv, sessionInv, signUp, signUpStart, jsTruthy] at h ⊢
          exact h
  | stepLogout =>
      simp [fullInv, sessionInv, logout]
  | stepCheckAuth o =>
      by_cases hs : jsTruthy s.storage = true
      · cases o with
        | success u =>
            simp [fullInv, sessionInv, checkAuth, checkAuthStartWithToken, hs]
        | failure =>
            simp [fullInv, sessionInv, checkAuth, checkAuthStartWithToken, hs]
      · rw [Bool.not_eq_true] at hs
        rw [fullInv, Bool.and_eq_true] at h
        obtain ⟨h1, h2⟩ := h
        rw [Bool.or_eq_true] at h2
        have htok : s.store.token.isSome = false := by
          rcases h2 with h2 | h2
          · simpa using h2
          · simp [hs] at h2
        rw [sessionInv, beq_iff_eq] at h1
        simp [fullInv, sessionInv, checkAuth, hs, htok]

theorem fullInv_reachable {s t : AppState} (h : Reachable s t)
    (hinv : fullInv s = true) : fullInv t = true := by
  induction h with
  | refl => exact hinv
  | tail t u hr hst ih => exact fullInv_step ih hst

/-- C1 (amended): when the process starts with no persisted token, every
state reachable by completed login, signUp, logout and checkAuth operations
with well-formed (nonempty-token) server responses satisfies the session
invariant: isAuthenticated holds exactly when both token and current user
are present. With a persisted token, the hydrated initial state itself
violates the invariant (see the counterexample theorem). -/
theorem reachable_sessionInv (s : AppState) (h : Reachable (initState none) s) :
    sessionInv s = true := by
  have hfull : fullInv s = true := fullInv_reachable h (by decide)
  simp [fullInv] at hfull
  exact hfull.1

/-- Witness for the amended C1 at the initial state itself. -/
theorem reachable_sessionInv_witness : sessionInv (initState none) = true :=
  reachable_sessionInv (initState none) (Reachable.refl (initState none))

/-- C1 counterexample: with a persisted token the hydrated initial state has
isAuthenticated true while current_user is absent, so the claimed
biconditional between isAuthenticated and the joint presence of token and
current_user is false at this reachable (initial) state. -/
theorem initState_violates_sessionInv :
    (initState (some "tok")).store.isAuthenticated = true ∧
    (initState (some "tok")).store.user = none ∧
    sessionInv (initState (some "tok")) = false := by decide

/-- Concrete user with role admin, for witnesses. -/
def adminUser : User :=
  { id := "1", email := "a@x.com", full_name := "A", role := "admin",
    account_status := "active" }

/-- Concrete user with role super_admin. -/
def superUser : User := { adminUser with role := "super_admin" }

/-- Concrete user with role user. -/
def plainUser : User := { adminUser with role := "user" }

/-- Store snapshot still loading. -/
def snapLoading : StoreState :=
  { users := [], user := none, stats := none, loading := true, error := none,
    token := none, isAuthenticated := false }

/-- Store snapshot settled and unauthenticated. -/
def snapUnauth : StoreState := { snapLoading with loading := false }

/-- Store snapshot authenticated as a plain user. -/
def snapUser : StoreState :=
  { snapUnauth with
    user := some plainUser
    token := some "tok"
    isAuthenticated := true }

/-- Store snapshot authenticated as an admin. -/
def snapAdmin : StoreState := { snapUser with user := some adminUser }

/-- Store snapshot authenticated as a super admin. -/
def snapSuper : StoreState := { snapUser with user := some superUser }

/-- C2: for every snapshot and requirement flags, the guard in
components/ProtectedRoute.tsx checks loading first (pending, no
navigation), authentication second (redirect to /login, independently of
the role requirement and of the user role), an unmet admin requirement
third and an unmet super-admin requirement fourth (both redirect to
/dashboard), and otherwise renders the children unchanged. -/
theorem ProtectedRoute_evaluation (α : Type) (c : α) (ra rsa : Bool) (s : StoreState) :
    (s.loading = true → ProtectedRoute c ra rsa s = RouteOutcome.pending) ∧
    (s.loading = false → s.isAuthenticated = false →
      ProtectedRoute c ra rsa s = RouteOutcome.navigate "/login") ∧
    (s.loading = false → s.isAuthenticated = true → ra = true →
      getIsAdmin s = false →
      ProtectedRoute c ra rsa s = RouteOutcome.navigate "/dashboard") ∧
    (s.loading = false → s.isAuthenticated = true →
      (ra = true → getIsAdmin s = true) → rsa = true → getIsSuperAdmin s = false →
      ProtectedRoute c ra rsa s = RouteOutcome.navigate "/dashboard") ∧
    (s.loading = false → s.isAuthenticated = true →
      (ra = true → getIsAdmin s = true) → (rsa = true → getIsSuperAdmin s = true) →
      ProtectedRoute c ra rsa s = RouteOutcome.render c) := by
  have hA : getIsAdmin s = (optRoleIs s.user "admin" || optRoleIs s.user "super_admin") := rfl
  have hS : getIsSuperAdmin s = optRoleIs s.user "super_admin" := rfl
  refine ⟨?_, ?_, ?_, ?_, ?_⟩
  · intro hl
    simp [ProtectedRoute, hl]
  · intro hl ha
    simp [ProtectedRoute, hl, ha]
  · intro hl ha hra hadm
    rw [hA] at hadm
    simp [ProtectedRoute, hl, ha, hra, hadm]
  · intro hl ha hra hrsa hsup
    rw [hA] at hra
    rw [hS] at hsup
    cases h1 : ra with
    | false => simp [ProtectedRoute, hl, ha, h1, hrsa, hsup]
    | true =>
        have hadm := hra h1
        simp [ProtectedRoute, hl, ha, h1, hadm, hrsa, hsup]
  · intro hl ha hra hrsa
    rw [hA] at hra
    rw [hS] at hrsa
    cases h1 : ra with
    | false =>
        cases h2 : rsa with
        | false => simp [ProtectedRoute, hl, ha, h1, h2]
        | true => simp [ProtectedRoute, hl, ha, h1, h2, hrsa h2]
    | true =>
        cases h2 : rsa with
        | false => simp [ProtectedRoute, hl, ha, h1, h2, hra h1]
        | true => simp [ProtectedRoute, hl, ha, h1, h2, hra h1, hrsa h2]

/-- Closed instantiation of the guard evaluation theorem at concrete
snapshots, discharging every hypothesis of every clause. -/
theorem ProtectedRoute_evaluation_witness :
    ProtectedRoute (0 : Nat) true true snapLoading = RouteOutcome.pending ∧
    ProtectedRoute (0 : Nat) true true snapUnauth = RouteOutcome.navigate "/login" ∧
    ProtectedRoute (0 : Nat) true false snapUser = RouteOutcome.navigate "/dashboard" ∧
    ProtectedRoute (0 : Nat) true true snapAdmin = RouteOutcome.navigate "/dashboard" ∧
    ProtectedRoute (0 : Nat) true true snapSuper = RouteOutcome.render 0 :=
  ⟨(ProtectedRoute_evaluation Nat 0 true true snapLoading).1 rfl,
   (ProtectedRoute_evaluation Nat 0 true true snapUnauth).2.1 rfl rfl,
   (ProtectedRoute_evaluation Nat 0 true false snapUser).2.2.1 rfl rfl rfl (by decide),
   (ProtectedRoute_evaluation Nat 0 true true snapAdmin).2.2.2.1 rfl rfl
     (fun _ => by decide) rfl (by decide),
   (ProtectedRoute_evaluation Nat 0 true true snapSuper).2.2.2.2 rfl rfl
     (fun _ => by decide) (fun _ => by decide)⟩

/-- C3: the second ProtectedRoute component at the end of store/authStore.ts
returns its children for every session state, so any two states produce the
same output and no authentication or role restriction is enforced; the
guard in components/ProtectedRoute.tsx, by contrast, does not render the
children for an unauthenticated settled snapshot. -/
theorem authStore_ProtectedRoute_unconditional (α : Type) (c : α) (s1 s2 : StoreState) :
    AuthStoreFile.ProtectedRoute c s1 = AuthStoreFile.ProtectedRoute c s2 ∧
    AuthStoreFile.ProtectedRoute c s1 = RouteOutcome.render c ∧
    ProtectedRoute c false false snapUnauth ≠ RouteOutcome.render c := by
  refine ⟨rfl, rfl, ?_⟩
  simp [ProtectedRoute, snapUnauth, snapLoading]

/-- C4: logout always, regardless of prior state, leaves the session
unauthenticated with user and token absent, removes the persisted authToken
from storage, and issues no network call. -/
theorem logout_contract (s : AppState) :
    (logout s).1.store.isAuthenticated = false ∧
    (logout s).1.store.token = none ∧
    (logout s).1.store.user = none ∧
    (logout s).1.storage = none ∧
    (logout s).2 = [] :=
  ⟨rfl, rfl, rfl, rfl, rfl⟩

/-- C5: a failed login leaves user, token, isAuthenticated and the persisted
token unchanged (so a previously unauthenticated session stays
unauthenticated), records the failure message in the error field, re-throws
the failure to the caller, and issues exactly one login request with no
retry. -/
theorem login_failure_contract (s : AppState) (creds : LoginCredentials) (msg : String) :
    (login s creds (AuthOutcome.failure msg)).1.store.user = s.store.user ∧
    (login s creds (AuthOutcome.failure msg)).1.store.token = s.store.token ∧
    (login s creds (AuthOutcome.failure msg)).1.store.isAuthenticated
      = s.store.isAuthenticated ∧
    (login s creds (AuthOutcome.failure msg)).1.storage = s.storage ∧
    (login s creds (AuthOutcome.failure msg)).1.store.error = some msg ∧
    (login s creds (AuthOutcome.failure msg)).2.2 = some msg ∧
    (login s creds (AuthOutcome.failure msg)).2.1
      = [ApiCall.postLogin creds.email creds.password] :=
  ⟨rfl, rfl, rfl, rfl, rfl, rfl, rfl⟩

/-- C6: when the persisted token is rejected by GET /auth/me, checkAuth
removes the persisted token, clears user and token, resolves the session to
unauthenticated with loading false, leaves the error field untouched, and
issued exactly the one whoami call. -/
theorem checkAuth_rejected_token (s : AppState) (t : String)
    (h1 : s.storage = some t) (h2 : t ≠ "") :
    (checkAuth s MeOutcome.failure).1.storage = none ∧
    (checkAuth s MeOutcome.failure).1.store.user = none ∧
    (checkAuth s MeOutcome.failure).1.store.token = none ∧
    (checkAuth s MeOutcome.failure).1.store.isAuthenticated = false ∧
    (checkAuth s MeOutcome.failure).1.store.loading = false ∧
    (checkAuth s MeOutcome.failure).1.store.error = s.store.error ∧
    (checkAuth s MeOutcome.failure).2 = [ApiCall.getMe t] := by
  have ht : jsTruthy (some t) = true := by simp [jsTruthy, h2]
  simp [checkAuth, h1, ht, checkAuthStartWithToken]

/-- Concrete pre-state for the rejected-token scenario: a remembered session
with a persisted token. -/
def exStateRejected : AppState :=
  { store :=
      { users := [], user := some adminUser, stats := none, loading := false,
        error := none, token := some "tok", isAuthenticated := true },
    storage := some "tok" }

/-- Closed instantiation of the rejected-token checkAuth theorem. -/
theorem checkAuth_rejected_token_witness :
    (checkAuth exStateRejected MeOutcome.failure).1.storage = none ∧
    (checkAuth exStateRejected MeOutcome.failure).1.store.user = none ∧
    (checkAuth exStateRejected MeOutcome.failure).1.store.token = none ∧
    (checkAuth exStateRejected MeOutcome.failure).1.store.isAuthenticated = false ∧
    (checkAuth exStateRejected MeOutcome.failure).1.store.loading = false ∧
    (checkAuth exStateRejected MeOutcome.failure).1.store.error
      = exStateRejected.store.error ∧
    (checkAuth exStateRejected MeOutcome.failure).2 = [ApiCall.getMe "tok"] :=
  checkAuth_rejected_token exStateRejected "tok" rfl (by decide)

/-- C7: with no persisted token, checkAuth resolves to unauthenticated with
loading false, issues no network call, and leaves user, token, error, the
cached lists and the persisted store untouched. -/
theorem checkAuth_no_token (s : AppState) (o : MeOutcome) (h : s.storage = none) :
    (checkAuth s o).1.store.isAuthenticated = false ∧
    (checkAuth s o).1.store.loading = false ∧
    (checkAuth s o).1.store.user = s.store.user ∧
    (checkAuth s o).1.store.token = s.store.token ∧
    (checkAuth s o).1.store.error = s.store.error ∧
    (checkAuth s o).1.store.users = s.store.users ∧
    (checkAuth s o).1.store.stats = s.store.stats ∧
    (checkAuth s o).1.storage = s.storage ∧
    (checkAuth s o).2 = [] := by
  simp [checkAuth, h, jsTruthy]

/-- Concrete pre-state with no persisted token but a stale error message. -/
def exStateNoToken : AppState :=
  { store :=
      { users := [], user := none, stats := none, loading := true,
        error := some "boom", token := none, isAuthenticated := false },
    storage := none }

/-- Closed instantiation of the no-token checkAuth theorem. -/
theorem checkAuth_no_token_witness :
    (checkAuth exStateNoToken MeOutcome.failure).1.store.isAuthenticated = false ∧
    (checkAuth exStateNoToken MeOutcome.failure).1.store.loading = false ∧
    (checkAuth exStateNoToken MeOutcome.failure).1.store.user
      = exStateNoToken.store.user ∧
    (checkAuth exStateNoToken MeOutcome.failure).1.store.token
      = exStateNoToken.store.token ∧
    (checkAuth exStateNoToken MeOutcome.failure).1.store.error
      = exStateNoToken.store.error ∧
    (checkAuth exStateNoToken MeOutcome.failure).1.store.users
      = exStateNoToken.store.users ∧
    (checkAuth exStateNoToken MeOutcome.failure).1.store.stats
      = exStateNoToken.store.stats ∧
    (checkAuth exStateNoToken MeOutcome.failure).1.storage
      = exStateNoToken.storage ∧
    (checkAuth exStateNoToken MeOutcome.failure).2 = [] :=
  checkAuth_no_token exStateNoToken MeOutcome.failure rfl

/-- Concrete pre-state holding a stale error message and a persisted token,
used to show checkAuth does not clear the error field. -/
def exStateStaleError : AppState :=
  { store :=
      { users := [], user := none, stats := none, loading := false,
        error := some "boom", token := some "tok", isAuthenticated := true },
    storage := some "tok" }

/-- C8 counterexample: checkAuth does not clear the error field at the start
of the operation (its first set call only raises loading) nor at any later
point; a stale failure message survives the whole operation on both the
rejected and the accepted path. -/
theorem checkAuth_never_clears_error :
    exStateStaleError.store.error = some "boom" ∧
    (checkAuthStartWithToken exStateStaleError).store.error = some "boom" ∧
    (checkAuth exStateStaleError MeOutcome.failure).1.store.error = some "boom" ∧
    (checkAuth exStateStaleError (MeOutcome.success adminUser)).1.store.error
      = some "boom" := by
  refine ⟨rfl, rfl, ?_, ?_⟩ <;> decide

/-- C8 (amended): login and signUp clear the error field in their first set
call, before any outcome is recorded; checkAuth never touches the error
field, leaving any previous failure message in place on all of its paths. -/
theorem error_reset_per_attempt (s : AppState) (o : MeOutcome) :
    (loginStart s).store.error = none ∧
    (signUpStart s).store.error = none ∧
    (checkAuthStartWithToken s).store.error = s.store.error ∧
    (checkAuth s o).1.store.error = s.store.error := by
  refine ⟨rfl, rfl, rfl, ?_⟩
  by_cases hs : jsTruthy s.storage = true
  · cases o <;> simp [checkAuth, checkAuthStartWithToken, hs]
  · rw [Bool.not_eq_true] at hs
    simp [checkAuth, hs]

/-- Concrete stats record. -/
def exStats : UserStats :=
  { total_users := 5, active_users := 4, suspended_users := 1,
    new_users_today := 0, new_users_this_week := 2, new_users_this_month := 3 }

/-- Concrete pre-state with a nonempty cached users list and cached stats. -/
def exStateCached : AppState :=
  { store :=
      { users := [adminUser], user := some adminUser, stats := some exStats,
        loading := false, error := none, token := some "tok",
        isAuthenticated := true },
    storage := some "tok" }

/-- C9 counterexample: logout does not leave the non-session store fields
unchanged; it resets the cached users list to empty and the cached stats to
absent. -/
theorem logout_touches_users_and_stats :
    exStateCached.store.users ≠ [] ∧
    exStateCached.store.stats ≠ none ∧
    (logout exStateCached).1.store.users = [] ∧
    (logout exStateCached).1.store.stats = none := by decide

/-- C9 (amended): login, signUp and checkAuth confine their store effects to
the session fields, leaving the cached users list and stats unchanged;
logout clears the session fields and the persisted token and additionally
resets users to the empty list and stats to absent. -/
theorem session_ops_frame (s : AppState) (creds : LoginCredentials)
    (o1 o2 : AuthOutcome) (email password fullName : String)
    (rc : Option String) (o3 : MeOutcome) :
    (logout s).1.store.users = [] ∧
    (logout s).1.store.stats = none ∧
    (login s creds o1).1.store.users = s.store.users ∧
    (login s creds o1).1.store.stats = s.store.stats ∧
    (signUp s email password fullName rc o2).1.store.users = s.store.users ∧
    (signUp s email password fullName rc o2).1.store.stats = s.store.stats ∧
    (checkAuth s o3).1.store.users = s.store.users ∧
    (checkAuth s o3).1.store.stats = s.store.stats := by
  refine ⟨rfl, rfl, ?_, ?_, ?_, ?_, ?_, ?_⟩
  · cases o1 <;> rfl
  · cases o1 <;> rfl
  · cases o2 <;> rfl
  · cases o2 <;> rfl
  · by_cases hs : jsTruthy s.storage = true
    · cases o3 <;> simp [checkAuth, checkAuthStartWithToken, hs]
    · rw [Bool.not_eq_true] at hs
      simp [checkAuth, hs]
  · by_cases hs : jsTruthy s.storage = true
    · cases o3 <;> simp [checkAuth, checkAuthStartWithToken, hs]
    · rw [Bool.not_eq_true] at hs
      simp [checkAuth, hs]

/-- C10: the role predicates are pure functions of the current user role and
follow the privilege ordering: role admin satisfies getIsAdmin but not
getIsSuperAdmin, role super_admin satisfies both, role user satisfies
neither, and with no current user both are false. -/
theorem role_predicate_ordering (st : StoreState) (u : User) :
    (st.user = some u → u.role = "admin" →
      getIsAdmin st = true ∧ getIsSuperAdmin st = false) ∧
    (st.user = some u → u.role = "super_admin" →
      getIsAdmin st = true ∧ getIsSuperAdmin st = true) ∧
    (st.user = some u → u.role = "user" →
      getIsAdmin st = false ∧ getIsSuperAdmin st = false) ∧
    (st.user = none → getIsAdmin st = false ∧ getIsSuperAdmin st = false) := by
  refine ⟨?_, ?_, ?_, ?_⟩
  · intro h1 hr
    simp [getIsAdmin, getIsSuperAdmin, optRoleIs, h1, hr]
  · intro h1 hr
    simp [getIsAdmin, getIsSuperAdmin, optRoleIs, h1, hr]
  · intro h1 hr
    simp [getIsAdmin, getIsSuperAdmin, optRoleIs, h1, hr]
  · intro h1
    simp [getIsAdmin, getIsSuperAdmin, optRoleIs, h1]

/-- Closed instantiation of the role predicate theorem at a store snapshot
for each role and for the absent user. -/
theorem role_predicate_ordering_witness :
    (getIsAdmin snapAdmin = true ∧ getIsSuperAdmin snapAdmin = false) ∧
    (getIsAdmin snapSuper = true ∧ getIsSuperAdmin snapSuper = true) ∧
    (getIsAdmin snapUser = false ∧ getIsSuperAdmin snapUser = false) ∧
    (getIsAdmin snapUnauth = false ∧ getIsSuperAdmin snapUnauth = false) :=
  ⟨(role_predicate_ordering snapAdmin adminUser).1 rfl rfl,
   (role_predicate_ordering snapSuper superUser).2.1 rfl rfl,
   (role_predicate_ordering snapUser plainUser).2.2.1 rfl rfl,
   (role_predicate_ordering snapUnauth adminUser).2.2.2 rfl⟩
